import Mathlib

/-!
Shallow embedding of the buge/solar TypeScript library (an implementation of
the NREL Sun Position Algorithm), together with proofs about it.

Modelling conventions:
* JavaScript numbers are modelled as exact real numbers (`ℝ`); a `Date` value
  is modelled by its `getTime()` value in milliseconds.
* JavaScript's `%` remainder (truncated division) and its `^` operator
  (bitwise XOR on `ToInt32` values) are modelled explicitly (`jsRem`,
  `jsXor`).
* `Math.atan2` is modelled by the usual real `atan2`.
All definitions are transcribed from `src/spa.ts`, `src/deltatpoly.ts`,
`src/pressure.ts` and `src/index.ts`; the coefficient tables are transcribed
verbatim.
-/

open Real

namespace Solar

noncomputable section

/-- JavaScript truncation toward zero, as used by the `%` remainder and by
`ToInt32`. -/
def jsTrunc (x : ℝ) : ℤ := if 0 ≤ x then ⌊x⌋ else ⌈x⌉

/-- JavaScript's `%` operator on numbers: `a - b * trunc (a / b)` (the result
has the sign of the dividend). -/
def jsRem (a b : ℝ) : ℝ := a - b * (jsTrunc (a / b) : ℝ)

/-- `normalize` from `spa.ts`: `((radians % TwoPI) + TwoPI) % TwoPI`. -/
def normalize (radians : ℝ) : ℝ :=
  jsRem (jsRem radians (2 * π) + 2 * π) (2 * π)

/-- `normalize` from `index.ts` (degrees): `((angle % 360) + 360) % 360`. -/
def normalizeDeg (degrees : ℝ) : ℝ :=
  jsRem (jsRem degrees 360 + 360) 360

/-- `deg2rad` from `spa.ts`. -/
def deg2rad (degrees : ℝ) : ℝ := π / 180 * degrees

/-- `rad2deg` from `spa.ts`. -/
def rad2deg (radians : ℝ) : ℝ := 180 / π * radians

/-- The Julian Date of the Unix epoch (`spa.ts`). -/
def JULIAN_DAY_UNIX_EPOCH : ℝ := 2440587.5

/-- Number of milliseconds in a day (`spa.ts`). -/
def MSEC_PER_DAY : ℝ := 1000 * 60 * 60 * 24

/-- `julianDate` from `spa.ts`; the argument is `date.getTime()` in
milliseconds. -/
def julianDate (dateMs : ℝ) : ℝ := JULIAN_DAY_UNIX_EPOCH + dateMs / MSEC_PER_DAY

/-- One periodic term `{A, B, C}` of the heliocentric tables in `spa.ts`. -/
structure SpaTerm where
  A : ℝ
  B : ℝ
  C : ℝ

/-- The inner loop of `heliocentric` in `spa.ts`:
`for (const term of terms[n]) Ln += term.A * cos(term.B + term.C * JME)`. -/
def sumTerms (terms : List SpaTerm) (t : ℝ) : ℝ :=
  terms.foldl (fun acc term => acc + term.A * cos (term.B + term.C * t)) 0

/-- `heliocentric` from `spa.ts`: the outer loop accumulates
`Ln * JME ** n` over the subseries and divides by `1e8`. -/
def heliocentric (terms : List (List SpaTerm)) (JME : ℝ) : ℝ :=
  (terms.enum.foldl (fun acc ng => acc + sumTerms ng.2 JME * JME ^ ng.1) 0) /
    100000000

/-- `polynomial` from `spa.ts` / `deltatpoly.ts`:
`coefficients.map((a, i) => a * x ** i).reduce((a, b) => a + b)`. -/
def polynomial (x : ℝ) (coefficients : List ℝ) : ℝ :=
  (coefficients.enum.map (fun ci => ci.2 * x ^ ci.1)).sum

def L0_TAIL : List SpaTerm := [
  ⟨3341656.0, 4.6692568, 6283.07585⟩,
  ⟨34894.0, 4.6261, 12566.1517⟩,
  ⟨3497.0, 2.7441, 5753.3849⟩,
  ⟨3418.0, 2.8289, 3.5231⟩,
  ⟨3136.0, 3.6277, 77713.7715⟩,
  ⟨2676.0, 4.4181, 7860.4194⟩,
  ⟨2343.0, 6.1352, 3930.2097⟩,
  ⟨1324.0, 0.7425, 11506.7698⟩,
  ⟨1273.0, 2.0371, 529.691⟩,
  ⟨1199.0, 1.1096, 1577.3435⟩,
  ⟨990, 5.233, 5884.927⟩,
  ⟨902, 2.045, 26.298⟩,
  ⟨857, 3.508, 398.149⟩,
  ⟨780, 1.179, 5223.694⟩,
  ⟨753, 2.533, 5507.553⟩,
  ⟨505, 4.583, 18849.228⟩,
  ⟨492, 4.205, 775.523⟩,
  ⟨357, 2.92, 0.067⟩,
  ⟨317, 5.849, 11790.629⟩,
  ⟨284, 1.899, 796.298⟩,
  ⟨271, 0.315, 10977.079⟩,
  ⟨243, 0.345, 5486.778⟩,
  ⟨206, 4.806, 2544.314⟩,
  ⟨205, 1.869, 5573.143⟩,
  ⟨202, 2.458, 6069.777⟩,
  ⟨156, 0.833, 213.299⟩,
  ⟨132, 3.411, 2942.463⟩,
  ⟨126, 1.083, 20.775⟩,
  ⟨115, 0.645, 0.98⟩,
  ⟨103, 0.636, 4694.003⟩,
  ⟨102, 0.976, 15720.839⟩,
  ⟨102, 4.267, 7.114⟩,
  ⟨99, 6.21, 2146.17⟩,
  ⟨98, 0.68, 155.42⟩,
  ⟨86, 5.98, 161000.69⟩,
  ⟨85, 1.3, 6275.96⟩,
  ⟨85, 3.67, 71430.7⟩,
  ⟨80, 1.81, 17260.15⟩,
  ⟨79, 3.04, 12036.46⟩,
  ⟨75, 1.76, 5088.63⟩,
  ⟨74, 3.5, 3154.69⟩,
  ⟨74, 4.68, 801.82⟩,
  ⟨70, 0.83, 9437.76⟩,
  ⟨62, 3.98, 8827.39⟩,
  ⟨61, 1.82, 7084.9⟩,
  ⟨57, 2.78, 6286.6⟩,
  ⟨56, 4.39, 14143.5⟩,
  ⟨56, 3.47, 6279.55⟩,
  ⟨52, 0.19, 12139.55⟩,
  ⟨52, 1.33, 1748.02⟩,
  ⟨51, 0.28, 5856.48⟩,
  ⟨49, 0.49, 1194.45⟩,
  ⟨41, 5.37, 8429.24⟩,
  ⟨41, 2.4, 19651.05⟩,
  ⟨39, 6.17, 10447.39⟩,
  ⟨37, 6.04, 10213.29⟩,
  ⟨37, 2.57, 1059.38⟩,
  ⟨36, 1.71, 2352.87⟩,
  ⟨36, 1.78, 6812.77⟩,
  ⟨33, 0.59, 17789.85⟩,
  ⟨30, 0.44, 83996.85⟩,
  ⟨30, 2.74, 1349.87⟩,
  ⟨25, 3.16, 4690.48⟩]

def L0_TERMS : List SpaTerm := ⟨175347046.0, 0, 0⟩ :: L0_TAIL

def L1_TAIL : List SpaTerm := [
  ⟨206059.0, 2.678235, 6283.07585⟩,
  ⟨4303.0, 2.6351, 12566.1517⟩,
  ⟨425.0, 1.59, 3.523⟩,
  ⟨119.0, 5.796, 26.298⟩,
  ⟨109.0, 2.966, 1577.344⟩,
  ⟨93, 2.59, 18849.23⟩,
  ⟨72, 1.14, 529.69⟩,
  ⟨68, 1.87, 398.15⟩,
  ⟨67, 4.41, 5507.55⟩,
  ⟨59, 2.89, 5223.69⟩,
  ⟨56, 2.17, 155.42⟩,
  ⟨45, 0.4, 796.3⟩,
  ⟨36, 0.47, 775.52⟩,
  ⟨29, 2.65, 7.11⟩,
  ⟨21, 5.34, 0.98⟩,
  ⟨19, 1.85, 5486.78⟩,
  ⟨19, 4.97, 213.3⟩,
  ⟨17, 2.99, 6275.96⟩,
  ⟨16, 0.03, 2544.31⟩,
  ⟨16, 1.43, 2146.17⟩,
  ⟨15, 1.21, 10977.08⟩,
  ⟨12, 2.83, 1748.02⟩,
  ⟨12, 3.26, 5088.63⟩,
  ⟨12, 5.27, 1194.45⟩,
  ⟨12, 2.08, 4694⟩,
  ⟨11, 0.77, 553.57⟩,
  ⟨10, 1.3, 6286.6⟩,
  ⟨10, 4.24, 1349.87⟩,
  ⟨9, 2.7, 242.73⟩,
  ⟨9, 5.64, 951.72⟩,
  ⟨8, 5.3, 2352.87⟩,
  ⟨6, 2.65, 9437.76⟩,
  ⟨6, 4.67, 4690.48⟩]

def L1_TERMS : List SpaTerm := ⟨628331966747.0, 0, 0⟩ :: L1_TAIL

def L2_TERMS : List SpaTerm := [
  ⟨52919.0, 0, 0⟩,
  ⟨8720.0, 1.0721, 6283.0758⟩,
  ⟨309.0, 0.867, 12566.152⟩,
  ⟨27, 0.05, 3.52⟩,
  ⟨16, 5.19, 26.3⟩,
  ⟨16, 3.68, 155.42⟩,
  ⟨10, 0.76, 18849.23⟩,
  ⟨9, 2.06, 77713.77⟩,
  ⟨7, 0.83, 775.52⟩,
  ⟨5, 4.66, 1577.34⟩,
  ⟨4, 1.03, 7.11⟩,
  ⟨4, 3.44, 5573.14⟩,
  ⟨3, 5.14, 796.3⟩,
  ⟨3, 6.05, 5507.55⟩,
  ⟨3, 1.19, 242.73⟩,
  ⟨3, 6.12, 529.69⟩,
  ⟨3, 0.31, 398.15⟩,
  ⟨3, 2.28, 553.57⟩,
  ⟨2, 4.38, 5223.69⟩,
  ⟨2, 3.75, 0.98⟩]

def L3_TERMS : List SpaTerm := [
  ⟨289.0, 5.844, 6283.076⟩,
  ⟨35, 0, 0⟩,
  ⟨17, 5.49, 12566.15⟩,
  ⟨3, 5.2, 155.42⟩,
  ⟨1, 4.72, 3.52⟩,
  ⟨1, 5.3, 18849.23⟩,
  ⟨1, 5.97, 242.73⟩]

def L4_TERMS : List SpaTerm := [
  ⟨114.0, 3.142, 0⟩,
  ⟨8, 4.13, 6283.08⟩,
  ⟨1, 3.84, 12566.15⟩]

def L5_TERMS : List SpaTerm := [
  ⟨1, 3.14, 0⟩]

def L_TERMS : List (List SpaTerm) := [L0_TERMS, L1_TERMS, L2_TERMS, L3_TERMS, L4_TERMS, L5_TERMS]

def B0_TERMS : List SpaTerm := [
  ⟨280.0, 3.199, 84334.662⟩,
  ⟨102.0, 5.422, 5507.553⟩,
  ⟨80, 3.88, 5223.69⟩,
  ⟨44, 3.7, 2352.87⟩,
  ⟨32, 4, 1577.34⟩]

def B1_TERMS : List SpaTerm := [
  ⟨9, 3.9, 5507.55⟩,
  ⟨6, 1.73, 5223.69⟩]

def B_TERMS : List (List SpaTerm) := [B0_TERMS, B1_TERMS]

def R0_TERMS : List SpaTerm := [
  ⟨100013989.0, 0, 0⟩,
  ⟨1670700.0, 3.0984635, 6283.07585⟩,
  ⟨13956.0, 3.05525, 12566.1517⟩,
  ⟨3084.0, 5.1985, 77713.7715⟩,
  ⟨1628.0, 1.1739, 5753.3849⟩,
  ⟨1576.0, 2.8469, 7860.4194⟩,
  ⟨925.0, 5.453, 11506.77⟩,
  ⟨542.0, 4.564, 3930.21⟩,
  ⟨472.0, 3.661, 5884.927⟩,
  ⟨346.0, 0.964, 5507.553⟩,
  ⟨329.0, 5.9, 5223.694⟩,
  ⟨307.0, 0.299, 5573.143⟩,
  ⟨243.0, 4.273, 11790.629⟩,
  ⟨212.0, 5.847, 1577.344⟩,
  ⟨186.0, 5.022, 10977.079⟩,
  ⟨175.0, 3.012, 18849.228⟩,
  ⟨110.0, 5.055, 5486.778⟩,
  ⟨98, 0.89, 6069.78⟩,
  ⟨86, 5.69, 15720.84⟩,
  ⟨86, 1.27, 161000.69⟩,
  ⟨65, 0.27, 17260.15⟩,
  ⟨63, 0.92, 529.69⟩,
  ⟨57, 2.01, 83996.85⟩,
  ⟨56, 5.24, 71430.7⟩,
  ⟨49, 3.25, 2544.31⟩,
  ⟨47, 2.58, 775.52⟩,
  ⟨45, 5.54, 9437.76⟩,
  ⟨43, 6.01, 6275.96⟩,
  ⟨39, 5.36, 4694⟩,
  ⟨38, 2.39, 8827.39⟩,
  ⟨37, 0.83, 19651.05⟩,
  ⟨37, 4.9, 12139.55⟩,
  ⟨36, 1.67, 12036.46⟩,
  ⟨35, 1.84, 2942.46⟩,
  ⟨33, 0.24, 7084.9⟩,
  ⟨32, 0.18, 5088.63⟩,
  ⟨32, 1.78, 398.15⟩,
  ⟨28, 1.21, 6286.6⟩,
  ⟨28, 1.9, 6279.55⟩,
  ⟨26, 4.59, 10447.39⟩]

def R1_TERMS : List SpaTerm := [
  ⟨103019.0, 1.10749, 6283.07585⟩,
  ⟨1721.0, 1.0644, 12566.1517⟩,
  ⟨702.0, 3.142, 0⟩,
  ⟨32, 1.02, 18849.23⟩,
  ⟨31, 2.84, 5507.55⟩,
  ⟨25, 1.32, 5223.69⟩,
  ⟨18, 1.42, 1577.34⟩,
  ⟨10, 5.91, 10977.08⟩,
  ⟨9, 1.42, 6275.96⟩,
  ⟨9, 0.27, 5486.78⟩]

def R2_TERMS : List SpaTerm := [
  ⟨4359.0, 5.7846, 6283.0758⟩,
  ⟨124.0, 5.579, 12566.152⟩,
  ⟨12, 3.14, 0⟩,
  ⟨9, 3.63, 77713.77⟩,
  ⟨6, 1.87, 5573.14⟩,
  ⟨3, 5.47, 18849.23⟩]

def R3_TERMS : List SpaTerm := [
  ⟨145.0, 4.273, 6283.076⟩,
  ⟨7, 3.92, 12566.15⟩]

def R4_TERMS : List SpaTerm := [
  ⟨4, 2.56, 6283.08⟩]

def R_TERMS : List (List SpaTerm) := [R0_TERMS, R1_TERMS, R2_TERMS, R3_TERMS, R4_TERMS]

def X_TERMS : List (List ℝ) := [
  [297.85036, 445267.11148, -0.0019142, 1 / 189474],
  [357.52772, 35999.05034, -0.0001603, -1 / 300000],
  [134.96298, 477198.867398, 0.0086972, 1 / 56250],
  [93.27191, 483202.017538, -0.0036825, 1 / 327270],
  [125.04452, -1934.136261, 0.0020708, 1 / 450000]]

def Y_TERMS : List (List ℝ) := [
  [0, 0, 0, 0, 1],
  [-2, 0, 0, 2, 2],
  [0, 0, 0, 2, 2],
  [0, 0, 0, 0, 2],
  [0, 1, 0, 0, 0],
  [0, 0, 1, 0, 0],
  [-2, 1, 0, 2, 2],
  [0, 0, 0, 2, 1],
  [0, 0, 1, 2, 2],
  [-2, -1, 0, 2, 2],
  [-2, 0, 1, 0, 0],
  [-2, 0, 0, 2, 1],
  [0, 0, -1, 2, 2],
  [2, 0, 0, 0, 0],
  [0, 0, 1, 0, 1],
  [2, 0, -1, 2, 2],
  [0, 0, -1, 0, 1],
  [0, 0, 1, 2, 1],
  [-2, 0, 2, 0, 0],
  [0, 0, -2, 2, 1],
  [2, 0, 0, 2, 2],
  [0, 0, 2, 2, 2],
  [0, 0, 2, 0, 0],
  [-2, 0, 1, 2, 2],
  [0, 0, 0, 2, 0],
  [-2, 0, 0, 2, 0],
  [0, 0, -1, 2, 1],
  [0, 2, 0, 0, 0],
  [2, 0, -1, 0, 1],
  [-2, 2, 0, 2, 2],
  [0, 1, 0, 0, 1],
  [-2, 0, 1, 0, 1],
  [0, -1, 0, 0, 1],
  [0, 0, 2, -2, 0],
  [2, 0, -1, 2, 1],
  [2, 0, 1, 2, 2],
  [0, 1, 0, 2, 2],
  [-2, 1, 1, 0, 0],
  [0, -1, 0, 2, 2],
  [2, 0, 0, 2, 1],
  [2, 0, 1, 0, 0],
  [-2, 0, 2, 2, 2],
  [-2, 0, 1, 2, 1],
  [2, 0, -2, 0, 1],
  [2, 0, 0, 0, 1],
  [0, -1, 1, 0, 0],
  [-2, -1, 0, 2, 1],
  [-2, 0, 0, 0, 1],
  [0, 0, 2, 2, 1],
  [-2, 0, 2, 0, 1],
  [-2, 1, 0, 2, 1],
  [0, 0, 1, -2, 0],
  [-1, 0, 1, 0, 0],
  [-2, 1, 0, 0, 0],
  [1, 0, 0, 0, 0],
  [0, 0, 1, 2, 0],
  [0, 0, -2, 2, 2],
  [-1, -1, 1, 0, 0],
  [0, 1, 1, 0, 0],
  [0, -1, 1, 2, 2],
  [2, -1, -1, 2, 2],
  [0, 0, 3, 2, 2],
  [2, -1, 0, 2, 2]]

def Δψ_TERMS : List (ℝ × ℝ) := [
  (-171996, -174.2),
  (-13187, -1.6),
  (-2274, -0.2),
  (2062, 0.2),
  (1426, -3.4),
  (712, 0.1),
  (-517, 1.2),
  (-386, -0.4),
  (-301, 0),
  (217, -0.5),
  (-158, 0),
  (129, 0.1),
  (123, 0),
  (63, 0),
  (63, 0.1),
  (-59, 0),
  (-58, -0.1),
  (-51, 0),
  (48, 0),
  (46, 0),
  (-38, 0),
  (-31, 0),
  (29, 0),
  (29, 0),
  (26, 0),
  (-22, 0),
  (21, 0),
  (17, -0.1),
  (16, 0),
  (-16, 0.1),
  (-15, 0),
  (-13, 0),
  (-12, 0),
  (11, 0),
  (-10, 0),
  (-8, 0),
  (7, 0),
  (-7, 0),
  (-7, 0),
  (-7, 0),
  (6, 0),
  (6, 0),
  (6, 0),
  (-6, 0),
  (-6, 0),
  (5, 0),
  (-5, 0),
  (-5, 0),
  (-5, 0),
  (4, 0),
  (4, 0),
  (4, 0),
  (-4, 0),
  (-4, 0),
  (-4, 0),
  (3, 0),
  (-3, 0),
  (-3, 0),
  (-3, 0),
  (-3, 0),
  (-3, 0),
  (-3, 0),
  (-3, 0)]

def Δε_TERMS : List (ℝ × ℝ) := [
  (92025, 8.9),
  (5736, -3.1),
  (977, -0.5),
  (-895, 0.5),
  (54, -0.1),
  (-7, 0),
  (224, -0.6),
  (200, 0),
  (129, -0.1),
  (-95, 0.3),
  (0, 0),
  (-70, 0),
  (-53, 0),
  (0, 0),
  (-33, 0),
  (26, 0),
  (32, 0),
  (27, 0),
  (0, 0),
  (-24, 0),
  (16, 0),
  (13, 0),
  (0, 0),
  (-12, 0),
  (0, 0),
  (0, 0),
  (-10, 0),
  (0, 0),
  (-8, 0),
  (7, 0),
  (9, 0),
  (7, 0),
  (6, 0),
  (0, 0),
  (5, 0),
  (3, 0),
  (-3, 0),
  (0, 0),
  (3, 0),
  (3, 0),
  (0, 0),
  (-3, 0),
  (-3, 0),
  (3, 0),
  (3, 0),
  (0, 0),
  (3, 0),
  (3, 0),
  (3, 0),
  (0, 0),
  (0, 0),
  (0, 0),
  (0, 0),
  (0, 0),
  (0, 0),
  (0, 0),
  (0, 0),
  (0, 0),
  (0, 0),
  (0, 0),
  (0, 0),
  (0, 0),
  (0, 0)]

def ε0_TERMS : List ℝ := [84381.448, -4680.93, -1.55, 1999.25, -51.38, -249.67, -39.05, 7.12, 27.87, 5.79, 2.45]

/-- The inner loop of `xyTerms` in `spa.ts`: `for j in 0..4, sum += xs[j]*ys[j]`. -/
def dot (xs ys : List ℝ) : ℝ := (List.zipWith (fun a b => a * b) xs ys).sum

/-- `xyTerms` from `spa.ts`. -/
def xyTerms (JCE : ℝ) : List ℝ :=
  Y_TERMS.map (fun ys => deg2rad (dot (X_TERMS.map (fun xs => polynomial JCE xs)) ys))

/-- The record returned by `nutation` in `spa.ts`. -/
structure NutationResult where
  Δψ : ℝ
  Δε : ℝ

/-- `nutation` from `spa.ts`. -/
def nutation (JCE : ℝ) : NutationResult where
  Δψ := deg2rad ((((Δψ_TERMS.zip (xyTerms JCE)).map
    (fun rx => (rx.1.1 + rx.1.2 * JCE) * sin rx.2)).sum) / 36000000)
  Δε := deg2rad ((((Δε_TERMS.zip (xyTerms JCE)).map
    (fun rx => (rx.1.1 + rx.1.2 * JCE) * cos rx.2)).sum) / 36000000)

/-- `Math.atan2(y, x)`. -/
def atan2 (y x : ℝ) : ℝ :=
  if 0 < x then arctan (y / x)
  else if x < 0 then
    if 0 ≤ y then arctan (y / x) + π else arctan (y / x) - π
  else
    if 0 < y then π / 2 else if y < 0 then -(π / 2) else 0

/-- The `Params` interface of `spa.ts`; `date` is the `Date`'s `getTime()`
value in milliseconds. -/
structure Params where
  date : ℝ
  ΔUT1 : ℝ
  ΔT : ℝ
  σ : ℝ
  φ : ℝ
  E : ℝ
  P : ℝ
  T : ℝ

/-- The `Result` interface of `spa.ts` (all angles in degrees).  The apparent
sun longitude λ is called `lam` because `λ` is reserved in Lean. -/
structure Result where
  JD : ℝ
  L : ℝ
  B : ℝ
  R : ℝ
  Θ : ℝ
  β : ℝ
  Δψ : ℝ
  Δε : ℝ
  ε : ℝ
  lam : ℝ
  α : ℝ
  δ : ℝ
  H : ℝ
  α' : ℝ
  δ' : ℝ
  H' : ℝ
  θ : ℝ
  Φ : ℝ

/-! The intermediate (radian-valued) quantities of `calculate` in `spa.ts`,
one definition per `const` binding, in source order. -/

namespace Steps

/-- `const φ = deg2rad(params.φ)`. -/
def φ (p : Params) : ℝ := deg2rad p.φ

/-- `const σ = deg2rad(params.σ)`. -/
def σ (p : Params) : ℝ := deg2rad p.σ

/-- Step 3.1: `JD = julianDate(date)`. -/
def JD (p : Params) : ℝ := julianDate p.date

/-- `JDE = JD + ΔT / 86400`. -/
def JDE (p : Params) : ℝ := JD p + p.ΔT / 86400

/-- `JC = (JD - 2451545) / 36525`. -/
def JC (p : Params) : ℝ := (JD p - 2451545) / 36525

/-- `JCE = (JDE - 2451545) / 36525`. -/
def JCE (p : Params) : ℝ := (JDE p - 2451545) / 36525

/-- `JME = JCE / 10`. -/
def JME (p : Params) : ℝ := JCE p / 10

/-- Step 3.2: `L = normalize(heliocentric(L_TERMS, JME))`. -/
def L (p : Params) : ℝ := normalize (heliocentric L_TERMS (JME p))

/-- `B = heliocentric(B_TERMS, JME)`. -/
def B (p : Params) : ℝ := heliocentric B_TERMS (JME p)

/-- `R = heliocentric(R_TERMS, JME)`. -/
def R (p : Params) : ℝ := heliocentric R_TERMS (JME p)

/-- Step 3.3: `Θ = L + PI`. -/
def Θ (p : Params) : ℝ := L p + π

/-- `β = -B`. -/
def β (p : Params) : ℝ := -B p

/-- Step 3.4: nutation in longitude. -/
def Δψ (p : Params) : ℝ := (nutation (JCE p)).Δψ

/-- Nutation in obliquity. -/
def Δε (p : Params) : ℝ := (nutation (JCE p)).Δε

/-- Step 3.5: `ε0 = polynomial(JME / 10, ε0_TERMS)`. -/
def ε0 (p : Params) : ℝ := polynomial (JME p / 10) ε0_TERMS

/-- `ε = deg2rad(ε0 / 3600) + Δε`. -/
def ε (p : Params) : ℝ := deg2rad (ε0 p / 3600) + Δε p

/-- Step 3.6: `Δτ = deg2rad(-20.4898 / (3600 * R))`. -/
def Δτ (p : Params) : ℝ := deg2rad (-20.4898 / (3600 * R p))

/-- Step 3.7: `λ = Θ + Δψ + Δτ`. -/
def lam (p : Params) : ℝ := Θ p + Δψ p + Δτ p

/-- Step 3.8: mean sidereal time `ν0`. -/
def ν0 (p : Params) : ℝ :=
  normalize (deg2rad (280.46061837 + 360.98564736629 * (JD p - 2451545) +
    0.000387933 * (JC p) ^ 2 - (JC p) ^ 3 / 38710000))

/-- `ν = ν0 + Δψ * cos(ε)`. -/
def ν (p : Params) : ℝ := ν0 p + Δψ p * cos (ε p)

/-- Step 3.9: geocentric sun right ascension `α`. -/
def α (p : Params) : ℝ :=
  normalize (atan2 (sin (lam p) * cos (ε p) - tan (β p) * sin (ε p)) (cos (lam p)))

/-- Step 3.10: geocentric sun declination `δ`. -/
def δ (p : Params) : ℝ :=
  arcsin (sin (β p) * cos (ε p) + cos (β p) * sin (ε p) * sin (lam p))

/-- Step 3.11: observer local hour angle `H = normalize(ν + σ - α)`. -/
def H (p : Params) : ℝ := normalize (ν p + σ p - α p)

/-- Step 3.12: `ξ = deg2rad(8.794 / (3600 * R))`. -/
def ξ (p : Params) : ℝ := deg2rad (8.794 / (3600 * R p))

/-- `u = atan(0.99664719 * tan(φ))`. -/
def u (p : Params) : ℝ := arctan (0.99664719 * tan (φ p))

/-- `x = cos(u) + (E / 6378140) * cos(φ)`. -/
def x (p : Params) : ℝ := cos (u p) + p.E / 6378140 * cos (φ p)

/-- `y = 0.99664719 * sin(u) + (E / 6378140) * sin(φ)`. -/
def y (p : Params) : ℝ := 0.99664719 * sin (u p) + p.E / 6378140 * sin (φ p)

/-- `Δα = atan2(-x sin ξ sin H, cos δ - x sin ξ cos H)`. -/
def Δα (p : Params) : ℝ :=
  atan2 (-x p * sin (ξ p) * sin (H p)) (cos (δ p) - x p * sin (ξ p) * cos (H p))

/-- `αʹ = α + Δα`. -/
def α' (p : Params) : ℝ := α p + Δα p

/-- `δʹ = atan2((sin δ - y sin ξ) cos Δα, cos δ - x sin ξ cos H)`. -/
def δ' (p : Params) : ℝ :=
  atan2 ((sin (δ p) - y p * sin (ξ p)) * cos (Δα p))
    (cos (δ p) - x p * sin (ξ p) * cos (H p))

/-- Step 3.13: `Hʹ = H - Δα`. -/
def H' (p : Params) : ℝ := H p - Δα p

/-- Step 3.14: geometric elevation
`e0 = asin(sin φ sin δʹ + cos φ cos δʹ cos Hʹ)`. -/
def e0 (p : Params) : ℝ :=
  arcsin (sin (φ p) * sin (δ' p) + cos (φ p) * cos (δ' p) * cos (H' p))

/-- Refraction correction `Δe` (note the double `deg2rad` on `10.3` in the
source). -/
def Δe (p : Params) : ℝ :=
  deg2rad (p.P / 1010 * (283 / (273 + p.T)) * 1.02 /
    (60 * tan (e0 p + deg2rad (deg2rad 10.3) / (e0 p + deg2rad 5.11))))

/-- `e = e0 + Δe`. -/
def e (p : Params) : ℝ := e0 p + Δe p

/-- `θ = PI / 2 - e`. -/
def θ (p : Params) : ℝ := π / 2 - e p

/-- Step 3.15: `Γ = atan2(sin Hʹ, cos Hʹ sin φ - tan δʹ cos φ)`. -/
def Γ (p : Params) : ℝ :=
  atan2 (sin (H' p)) (cos (H' p) * sin (φ p) - tan (δ' p) * cos (φ p))

/-- `Φ = normalize(Γ + PI)`. -/
def Φ (p : Params) : ℝ := normalize (Γ p + π)

end Steps

/-- `calculate` from `spa.ts`: assembles the `Result` record, converting the
radian-valued intermediates to degrees. -/
def calculate (p : Params) : Result where
  JD := Steps.JD p
  L := rad2deg (Steps.L p)
  B := rad2deg (Steps.B p)
  R := Steps.R p
  Θ := rad2deg (Steps.Θ p)
  β := rad2deg (Steps.β p)
  Δψ := rad2deg (Steps.Δψ p)
  Δε := rad2deg (Steps.Δε p)
  ε := rad2deg (Steps.ε p)
  lam := rad2deg (Steps.lam p)
  α := rad2deg (Steps.α p)
  δ := rad2deg (Steps.δ p)
  H := rad2deg (Steps.H p)
  α' := rad2deg (Steps.α' p)
  δ' := rad2deg (Steps.δ' p)
  H' := rad2deg (Steps.H' p)
  θ := rad2deg (Steps.θ p)
  Φ := rad2deg (Steps.Φ p)

/-- `pressureAt` from `pressure.ts`, in pascals as a function of altitude in
meters: `atmospheres(exp((-g h M) / (T0 R0)))` with `atmospheres(x) =
101325 x` pascals. -/
def pressureAt (altitude : ℝ) : ℝ :=
  101325 * Real.exp (-9.80665 * altitude * 0.02896968 / (288.16 * 8.314462618))

/-- `ToUint32`: the 32-bit pattern of a JavaScript `ToInt32` conversion. -/
def toUint32 (n : ℤ) : ℕ := (n % 4294967296).toNat

/-- Reinterpret a 32-bit pattern as a signed 32-bit integer. -/
def int32ofUint32 (u : ℕ) : ℤ :=
  if u < 2147483648 then (u : ℤ) else (u : ℤ) - 4294967296

/-- XOR of the low `fuel` bits of two naturals, written with structural
recursion so that concrete instances evaluate inside the kernel. -/
def xorBits : ℕ → ℕ → ℕ → ℕ
  | 0, _, _ => 0
  | fuel + 1, a, b =>
      (if a % 2 = b % 2 then 0 else 1) + 2 * xorBits fuel (a / 2) (b / 2)

/-- Signed 32-bit XOR on integers: XOR the 32-bit patterns and reinterpret. -/
def int32Xor (a b : ℤ) : ℤ := int32ofUint32 (xorBits 32 (toUint32 a) (toUint32 b))

/-- JavaScript's `a ^ b` on numbers: `ToInt32` both operands, XOR the 32-bit
patterns, return the signed result. -/
def jsXor (a b : ℝ) : ℝ := ((int32Xor (jsTrunc a) (jsTrunc b) : ℤ) : ℝ)

/-- `ΔT` from `deltatpoly.ts` as a function of the decimal year
`y = date.getUTCFullYear() + (date.getUTCMonth() + 0.5) / 12` that the source
computes from its `Date` argument.  NOTE: in the `2050 ≤ y < 2150` band the
source writes `(-20 + 32 * ((y - 1820) / 100)) ^ (2 - 0.5628 * (2150 - y))`,
and in JavaScript `^` is bitwise XOR, not exponentiation. -/
def ΔT (y : ℝ) : ℝ :=
  if y < -500 then polynomial ((y - 1820) / 100) [-20, 0, 32]
  else if y < 500 then
    polynomial (y / 100)
      [10583.6, -1014.41, 33.78311, -5.952053, -0.1798452, 0.022174192,
        0.0090316521]
  else if y < 1600 then
    polynomial ((y - 1000) / 100)
      [1574.2, -556.01, 71.23472, 0.319781, -0.8503463, -0.005050998,
        0.0083572073]
  else if y < 1700 then polynomial (y - 1600) [120, -0.9808, -0.01532, 1 / 7129]
  else if y < 1800 then
    polynomial (y - 1700) [8.83, 0.1603, -0.0059285, 0.00013336, -1 / 1174000]
  else if y < 1860 then
    polynomial (y - 1800)
      [13.72, -0.332447, 0.0068612, 0.0041116, -0.00037436, 0.0000121272,
        -0.0000001699, 0.000000000875]
  else if y < 1900 then
    polynomial (y - 1860)
      [7.62, 0.5737, -0.251754, 0.01680668, -0.0004473624, 1 / 233174]
  else if y < 1920 then
    polynomial (y - 1900) [-2.79, 1.494119, -0.0598939, 0.0061966, -0.000197]
  else if y < 1941 then polynomial (y - 1920) [21.2, 0.84493, -0.0761, 0.0020936]
  else if y < 1961 then polynomial (y - 1950) [29.07, 0.407, -1 / 233, 1 / 2547]
  else if y < 1986 then polynomial (y - 1975) [45.45, 1.067, -1 / 260, -1 / 718]
  else if y < 2005 then
    polynomial (y - 2000)
      [63.86, 0.3345, -0.060374, 0.0017275, 0.000651814, 0.00002373599]
  else if y < 2050 then polynomial (y - 2000) [62.92, 0.32217, 0.005589]
  else if y < 2150 then
    jsXor (-20 + 32 * ((y - 1820) / 100)) (2 - 0.5628 * (2150 - y))
  else polynomial ((y - 1820) / 100) [-20, 0, 32]

/-- The interior cut points of the fifteen year bands of `ΔT`, in source
order. -/
def cuts : List ℚ :=
  [-500, 500, 1600, 1700, 1800, 1860, 1900, 1920, 1941, 1961, 1986, 2005, 2050,
    2150]

/-- Membership of year `y` in the `n`-th band of `ΔT` (bands numbered 0–14 in
source order; the first extends to `-∞`, the last to `+∞`). -/
def inBand (n : ℕ) (y : ℝ) : Prop :=
  if n = 0 then y < -500
  else if n = 1 then -500 ≤ y ∧ y < 500
  else if n = 2 then 500 ≤ y ∧ y < 1600
  else if n = 3 then 1600 ≤ y ∧ y < 1700
  else if n = 4 then 1700 ≤ y ∧ y < 1800
  else if n = 5 then 1800 ≤ y ∧ y < 1860
  else if n = 6 then 1860 ≤ y ∧ y < 1900
  else if n = 7 then 1900 ≤ y ∧ y < 1920
  else if n = 8 then 1920 ≤ y ∧ y < 1941
  else if n = 9 then 1941 ≤ y ∧ y < 1961
  else if n = 10 then 1961 ≤ y ∧ y < 1986
  else if n = 11 then 1986 ≤ y ∧ y < 2005
  else if n = 12 then 2005 ≤ y ∧ y < 2050
  else if n = 13 then 2050 ≤ y ∧ y < 2150
  else if n = 14 then 2150 ≤ y
  else False

/-- The formula the source applies on the `n`-th band (transcribed branch by
branch from `ΔT`). -/
def bandFormula (n : ℕ) (y : ℝ) : ℝ :=
  if n = 0 then polynomial ((y - 1820) / 100) [-20, 0, 32]
  else if n = 1 then
    polynomial (y / 100)
      [10583.6, -1014.41, 33.78311, -5.952053, -0.1798452, 0.022174192,
        0.0090316521]
  else if n = 2 then
    polynomial ((y - 1000) / 100)
      [1574.2, -556.01, 71.23472, 0.319781, -0.8503463, -0.005050998,
        0.0083572073]
  else if n = 3 then polynomial (y - 1600) [120, -0.9808, -0.01532, 1 / 7129]
  else if n = 4 then
    polynomial (y - 1700) [8.83, 0.1603, -0.0059285, 0.00013336, -1 / 1174000]
  else if n = 5 then
    polynomial (y - 1800)
      [13.72, -0.332447, 0.0068612, 0.0041116, -0.00037436, 0.0000121272,
        -0.0000001699, 0.000000000875]
  else if n = 6 then
    polynomial (y - 1860)
      [7.62, 0.5737, -0.251754, 0.01680668, -0.0004473624, 1 / 233174]
  else if n = 7 then
    polynomial (y - 1900) [-2.79, 1.494119, -0.0598939, 0.0061966, -0.000197]
  else if n = 8 then polynomial (y - 1920) [21.2, 0.84493, -0.0761, 0.0020936]
  else if n = 9 then polynomial (y - 1950) [29.07, 0.407, -1 / 233, 1 / 2547]
  else if n = 10 then polynomial (y - 1975) [45.45, 1.067, -1 / 260, -1 / 718]
  else if n = 11 then
    polynomial (y - 2000)
      [63.86, 0.3345, -0.060374, 0.0017275, 0.000651814, 0.00002373599]
  else if n = 12 then polynomial (y - 2000) [62.92, 0.32217, 0.005589]
  else if n = 13 then
    jsXor (-20 + 32 * ((y - 1820) / 100)) (2 - 0.5628 * (2150 - y))
  else if n = 14 then polynomial ((y - 1820) / 100) [-20, 0, 32]
  else 0

/-- A concrete `Params` value: the instant is `962506800000 ms` past the Unix
epoch (July 2000), chosen so that `JME = 1/2000` exactly; `ΔT = 0` and the
observer is at the origin. -/
def p₀ : Params := ⟨962506800000, 0, 0, 0, 0, 0, 0, 0⟩

end

/-! ## Proofs -/

noncomputable section
lemma jsRem_twice (m x : ℝ) (hm : 0 < m) :
    jsRem (jsRem x m + m) m = x - m * (⌊x / m⌋ : ℝ) := by
  have hm' : m ≠ 0 := ne_of_gt hm
  have hfr : x - m * (⌊x / m⌋ : ℝ) = m * Int.fract (x / m) := by
    have hx : m * (x / m) = x := by field_simp
    unfold Int.fract
    rw [mul_sub, hx]
  have hfr0 : 0 ≤ m * Int.fract (x / m) := mul_nonneg hm.le (Int.fract_nonneg _)
  have hfr1 : m * Int.fract (x / m) < m :=
    (mul_lt_iff_lt_one_right hm).2 (Int.fract_lt_one _)
  by_cases hx : 0 ≤ x
  · -- inner remainder uses the floor
    have hq : 0 ≤ x / m := div_nonneg hx hm.le
    have h1 : jsRem x m = m * Int.fract (x / m) := by
      unfold jsRem jsTrunc
      rw [if_pos hq, ← hfr]
    rw [h1]
    set r := m * Int.fract (x / m) with hr
    have hdiv : (r + m) / m = r / m + 1 := by field_simp
    have hr01 : r / m ∈ Set.Ico (0 : ℝ) 1 := by
      constructor
      · exact div_nonneg hfr0 hm.le
      · rw [div_lt_one hm]; exact hfr1
    have htr : jsTrunc ((r + m) / m) = 1 := by
      unfold jsTrunc
      rw [if_pos (by rw [hdiv]; linarith [hr01.1]), hdiv, Int.floor_add_one,
        Int.floor_eq_zero_iff.2 hr01]
      norm_num
    unfold jsRem
    rw [htr, hfr]
    push_cast
    ring
  · -- negative x: the inner remainder uses the ceiling
    push_neg at hx
    have hq : x / m < 0 := div_neg_of_neg_of_pos hx hm
    have h1 : jsRem x m = x - m * (⌈x / m⌉ : ℝ) := by
      unfold jsRem jsTrunc
      rw [if_neg (not_le.2 hq)]
    by_cases hf : Int.fract (x / m) = 0
    · -- x is an exact multiple of m
      have hxm : x / m = ((⌊x / m⌋ : ℤ) : ℝ) := by
        have := Int.floor_add_fract (x / m)
        rw [hf, add_zero] at this
        exact this.symm
      have hceil : (⌈x / m⌉ : ℤ) = ⌊x / m⌋ := by
        rw [hxm, Int.ceil_intCast, Int.floor_intCast]
      have hr0 : jsRem x m = 0 := by
        rw [h1, hceil, hfr, hf, mul_zero]
      rw [hr0, zero_add]
      have htr : jsTrunc (m / m) = 1 := by
        unfold jsTrunc
        rw [div_self hm', if_pos (by norm_num)]
        norm_num
      unfold jsRem
      rw [htr, hfr, hf]
      push_cast
      ring
    · -- x is strictly between two multiples of m
      have hceil : (⌈x / m⌉ : ℤ) = ⌊x / m⌋ + 1 := by
        have hle : (⌈x / m⌉ : ℤ) ≤ ⌊x / m⌋ + 1 := Int.ceil_le_floor_add_one _
        have hlt : (⌊x / m⌋ : ℤ) < ⌈x / m⌉ := by
          have h1' : (⌊x / m⌋ : ℝ) < x / m := by
            have h0 : 0 < Int.fract (x / m) :=
              lt_of_le_of_ne (Int.fract_nonneg _) (Ne.symm hf)
            have := Int.floor_add_fract (x / m)
            linarith
          exact_mod_cast h1'.trans_le (Int.le_ceil _)
        omega
      have h2 : jsRem x m = m * Int.fract (x / m) - m := by
        rw [h1, hceil]
        push_cast
        linarith [hfr]
      rw [h2, sub_add_cancel]
      have hdd : m * Int.fract (x / m) / m = Int.fract (x / m) := by
        field_simp
      have hfpos : 0 < Int.fract (x / m) :=
        lt_of_le_of_ne (Int.fract_nonneg _) (Ne.symm hf)
      have htr : jsTrunc (m * Int.fract (x / m) / m) = 0 := by
        unfold jsTrunc
        rw [if_pos (by rw [hdd]; exact (Int.fract_nonneg _)), hdd,
          Int.floor_eq_zero_iff.2 ⟨Int.fract_nonneg _, Int.fract_lt_one _⟩]
      unfold jsRem
      rw [htr, hfr]
      push_cast
      ring

lemma two_pi_pos : (0 : ℝ) < 2 * π := by
  have := Real.pi_pos
  linarith

lemma normalize_eq (x : ℝ) :
    normalize x = x - (2 * π) * (⌊x / (2 * π)⌋ : ℝ) :=
  jsRem_twice (2 * π) x two_pi_pos

lemma normalize_eq_fract (x : ℝ) :
    normalize x = (2 * π) * Int.fract (x / (2 * π)) := by
  rw [normalize_eq]
  have hx : (2 * π) * (x / (2 * π)) = x := by
    field_simp
  unfold Int.fract
  rw [mul_sub, hx]

lemma normalize_nonneg (x : ℝ) : 0 ≤ normalize x := by
  rw [normalize_eq_fract]
  exact mul_nonneg two_pi_pos.le (Int.fract_nonneg _)

lemma normalize_lt (x : ℝ) : normalize x < 2 * π := by
  rw [normalize_eq_fract]
  exact (mul_lt_iff_lt_one_right two_pi_pos).2 (Int.fract_lt_one _)

lemma normalize_add_two_pi (x : ℝ) : normalize (x + 2 * π) = normalize x := by
  rw [normalize_eq_fract, normalize_eq_fract]
  have h : (x + 2 * π) / (2 * π) = x / (2 * π) + 1 := by
    field_simp
  rw [h, Int.fract_add_one]

lemma normalize_eq_self {x : ℝ} (h0 : 0 ≤ x) (h1 : x < 2 * π) :
    normalize x = x := by
  rw [normalize_eq, Int.floor_eq_zero_iff.2 ⟨div_nonneg h0 two_pi_pos.le,
    (div_lt_one two_pi_pos).2 h1⟩]
  push_cast
  ring

lemma normalizeDeg_eq (x : ℝ) :
    normalizeDeg x = x - 360 * (⌊x / 360⌋ : ℝ) :=
  jsRem_twice 360 x (by norm_num)

lemma normalizeDeg_eq_fract (x : ℝ) :
    normalizeDeg x = 360 * Int.fract (x / 360) := by
  rw [normalizeDeg_eq]
  have hx : (360 : ℝ) * (x / 360) = x := by field_simp
  unfold Int.fract
  rw [mul_sub, hx]

lemma normalizeDeg_nonneg (x : ℝ) : 0 ≤ normalizeDeg x := by
  rw [normalizeDeg_eq_fract]
  exact mul_nonneg (by norm_num) (Int.fract_nonneg _)

lemma normalizeDeg_lt (x : ℝ) : normalizeDeg x < 360 := by
  rw [normalizeDeg_eq_fract]
  nlinarith [Int.fract_lt_one (x / 360)]

lemma normalizeDeg_add_360 (x : ℝ) : normalizeDeg (x + 360) = normalizeDeg x := by
  rw [normalizeDeg_eq_fract, normalizeDeg_eq_fract]
  have h : (x + 360) / 360 = x / 360 + 1 := by ring
  rw [h, Int.fract_add_one]

/-- Claim C8: both angle normalizations of the pipeline (`normalize` in
`spa.ts`, radians, and `normalize` in `index.ts`, degrees) are periodic in a
full turn and always land in `[0, 2π)` (resp. `[0, 360)`), including for
negative inputs — unlike the raw JavaScript remainder `jsRem`, which is
negative at `-π`. -/
theorem normalize_periodic_and_range :
    (∀ x : ℝ, normalize (x + 2 * π) = normalize x) ∧
    (∀ x : ℝ, 0 ≤ normalize x ∧ normalize x < 2 * π) ∧
    (∀ x : ℝ, normalizeDeg (x + 360) = normalizeDeg x) ∧
    (∀ x : ℝ, 0 ≤ normalizeDeg x ∧ normalizeDeg x < 360) ∧
    jsRem (-π) (2 * π) = -π ∧ normalize (-π) = π := by
  refine ⟨normalize_add_two_pi, fun x => ⟨normalize_nonneg x, normalize_lt x⟩,
    normalizeDeg_add_360, fun x => ⟨normalizeDeg_nonneg x, normalizeDeg_lt x⟩,
    ?_, ?_⟩
  · have h : -π / (2 * π) = -(1 / 2) := by
      rw [div_eq_iff (ne_of_gt two_pi_pos)]
      ring
    unfold jsRem jsTrunc
    rw [h, if_neg (by norm_num)]
    norm_num
  · have h : -π / (2 * π) = -(1 / 2) := by
      rw [div_eq_iff (ne_of_gt two_pi_pos)]
      ring
    rw [normalize_eq, h]
    norm_num
    ring

/-- Claim C10: `pressureAt 0` is exactly one standard atmosphere
(101325 Pa), and `pressureAt` is strictly decreasing in altitude. -/
theorem pressureAt_std_and_strict_anti :
    pressureAt 0 = 101325 ∧
    ∀ h1 h2 : ℝ, h1 < h2 → pressureAt h2 < pressureAt h1 := by
  constructor
  · have harg : -9.80665 * (0 : ℝ) * 0.02896968 / (288.16 * 8.314462618) = 0 := by
      norm_num
    rw [pressureAt, harg, Real.exp_zero, mul_one]
  · intro h1 h2 hlt
    unfold pressureAt
    have hc : -9.80665 * h2 * 0.02896968 / (288.16 * 8.314462618) <
        -9.80665 * h1 * 0.02896968 / (288.16 * 8.314462618) := by
      rw [div_lt_div_iff_of_pos_right (by norm_num : (0:ℝ) < 288.16 * 8.314462618)]
      nlinarith
    exact mul_lt_mul_of_pos_left (Real.exp_lt_exp.2 hc) (by norm_num)

/-- Witness for C10: the strict-decrease part instantiated at altitudes 0 and
1. -/
theorem pressureAt_std_and_strict_anti_witness : pressureAt 1 < pressureAt 0 :=
  pressureAt_std_and_strict_anti.2 0 1 (by norm_num)

/-- Claim C7: `calculate` is a pure function of the `Params` fields — two
parameter records that agree on every field produce equal results. -/
theorem calculate_deterministic (p q : Params)
    (h1 : p.date = q.date) (h2 : p.ΔUT1 = q.ΔUT1) (h3 : p.ΔT = q.ΔT)
    (h4 : p.σ = q.σ) (h5 : p.φ = q.φ) (h6 : p.E = q.E) (h7 : p.P = q.P)
    (h8 : p.T = q.T) : calculate p = calculate q := by
  have hpq : p = q := by
    cases p
    cases q
    simp_all
  rw [hpq]

/-- Witness for C7 at the concrete parameter record `p₀`. -/
theorem calculate_deterministic_witness : calculate p₀ = calculate p₀ :=
  calculate_deterministic p₀ p₀ rfl rfl rfl rfl rfl rfl rfl rfl

/-- Claim C9: the `ΔUT1` field of `Params` is never read by `calculate` —
changing it does not change the result. -/
theorem calculate_ignores_ΔUT1 (p : Params) (v : ℝ) :
    calculate { p with ΔUT1 := v } = calculate p := rfl

lemma rad2deg_deg2rad (x : ℝ) : rad2deg (deg2rad x) = x := by
  unfold rad2deg deg2rad
  field_simp
  ring

/-- Claim C5: the geometric elevation is the stated arcsine; the refraction
correction `Δe` (in degrees) equals the empirical formula with `e0`, `10.3`
and `5.11` all interpreted in degrees; it is applied unconditionally (the
equations hold for every `Params`, with no condition on the sign of `e0`);
and the zenith angle is `θ = 90° − (e0 + Δe)`. -/
theorem refraction_degree_form_unconditional (p : Params) :
    Steps.e0 p = arcsin (sin (Steps.φ p) * sin (Steps.δ' p) +
      cos (Steps.φ p) * cos (Steps.δ' p) * cos (Steps.H' p)) ∧
    rad2deg (Steps.Δe p) = p.P / 1010 * (283 / (273 + p.T)) * 1.02 /
      (60 * tan (deg2rad (rad2deg (Steps.e0 p) +
        10.3 / (rad2deg (Steps.e0 p) + 5.11)))) ∧
    (calculate p).θ = 90 - (rad2deg (Steps.e0 p) + rad2deg (Steps.Δe p)) := by
  have hπ := Real.pi_ne_zero
  refine ⟨rfl, ?_, ?_⟩
  · have harg : Steps.e0 p + deg2rad (deg2rad 10.3) / (Steps.e0 p + deg2rad 5.11) =
        deg2rad (rad2deg (Steps.e0 p) + 10.3 / (rad2deg (Steps.e0 p) + 5.11)) := by
      set E0 := Steps.e0 p with hE0
      unfold deg2rad rad2deg
      have hkey : 180 / π * E0 + 5.11 = 180 / π * (E0 + π / 180 * 5.11) := by
        field_simp
        ring
      have h1 : π / 180 * (180 / π * E0) = E0 := by
        rw [← mul_assoc, div_mul_div_comm, mul_comm (π : ℝ) 180,
          div_self (show (180 : ℝ) * π ≠ 0 from mul_ne_zero (by norm_num) hπ),
          one_mul]
      rw [mul_add, h1, hkey, div_mul_eq_div_div, div_div_eq_mul_div,
        ← mul_div_assoc]
      congr 1
      congr 1
      ring
    unfold Steps.Δe
    rw [rad2deg_deg2rad, harg]
  · show rad2deg (Steps.θ p) = _
    unfold Steps.θ Steps.e rad2deg
    field_simp
    ring

lemma foldl_add_eq {α : Type} (f : α → ℝ) (l : List α) (a : ℝ) :
    l.foldl (fun acc z => acc + f z) a = a + (l.map f).sum := by
  induction l generalizing a with
  | nil => simp
  | cons hd tl ih =>
    rw [List.foldl_cons, ih, List.map_cons, List.sum_cons]
    ring

lemma sumTerms_eq_sum (l : List SpaTerm) (t : ℝ) :
    sumTerms l t =
      (l.map (fun term => term.A * cos (term.B + term.C * t))).sum := by
  unfold sumTerms
  simpa using foldl_add_eq (fun term => term.A * cos (term.B + term.C * t)) l 0

/-- Claim C4: for every term-table input and every time argument `t`, the
heliocentric evaluator returns
`(Σ_n t^n · Σ_{terms of subseries n} A·cos(B + C·t)) / 1e8`; being a Lean
function of its two arguments it is deterministic and total. -/
theorem heliocentric_eq_series (terms : List (List SpaTerm)) (t : ℝ) :
    heliocentric terms t =
      (terms.enum.map (fun ng =>
        t ^ ng.1 *
          (ng.2.map (fun term => term.A * cos (term.B + term.C * t))).sum)).sum /
        100000000 := by
  unfold heliocentric
  rw [show terms.enum.foldl (fun acc ng => acc + sumTerms ng.2 t * t ^ ng.1) 0 =
      0 + (terms.enum.map (fun ng => sumTerms ng.2 t * t ^ ng.1)).sum from by
    simpa using foldl_add_eq (fun ng : ℕ × List SpaTerm => sumTerms ng.2 t * t ^ ng.1)
      terms.enum 0]
  rw [zero_add]
  congr 1
  have hfun : (fun ng : ℕ × List SpaTerm => sumTerms ng.2 t * t ^ ng.1) =
      fun ng : ℕ × List SpaTerm =>
        t ^ ng.1 * (ng.2.map (fun term => term.A * cos (term.B + term.C * t))).sum := by
    funext ng
    rw [sumTerms_eq_sum, mul_comm]
  rw [hfun]

lemma sumTerms_cons (a : SpaTerm) (l : List SpaTerm) (t : ℝ) :
    sumTerms (a :: l) t = a.A * cos (a.B + a.C * t) + sumTerms l t := by
  rw [sumTerms_eq_sum, sumTerms_eq_sum, List.map_cons, List.sum_cons]

lemma abs_sumTerms_le (l : List SpaTerm) (t : ℝ) :
    |sumTerms l t| ≤ (l.map (fun term => |term.A|)).sum := by
  induction l with
  | nil => simp [sumTerms]
  | cons hd tl ih =>
    rw [sumTerms_cons, List.map_cons, List.sum_cons]
    refine (abs_add _ _).trans (add_le_add ?_ ih)
    rw [abs_mul]
    calc |hd.A| * |cos (hd.B + hd.C * t)| ≤ |hd.A| * 1 :=
        mul_le_mul_of_nonneg_left (Real.abs_cos_le_one _) (abs_nonneg _)
      _ = |hd.A| := mul_one _

lemma L0_TAIL_bound : ((L0_TAIL.map (fun term => |term.A|)).sum : ℝ) ≤ 3405402 := by
  simp only [L0_TAIL, List.map_cons, List.map_nil, List.sum_cons, List.sum_nil]
  norm_num

lemma L1_TAIL_bound : ((L1_TAIL.map (fun term => |term.A|)).sum : ℝ) ≤ 211780 := by
  simp only [L1_TAIL, List.map_cons, List.map_nil, List.sum_cons, List.sum_nil]
  norm_num

lemma L2_TERMS_bound : ((L2_TERMS.map (fun term => |term.A|)).sum : ℝ) ≤ 62068 := by
  simp only [L2_TERMS, List.map_cons, List.map_nil, List.sum_cons, List.sum_nil]
  norm_num

lemma L3_TERMS_bound : ((L3_TERMS.map (fun term => |term.A|)).sum : ℝ) ≤ 347 := by
  simp only [L3_TERMS, List.map_cons, List.map_nil, List.sum_cons, List.sum_nil]
  norm_num

lemma L4_TERMS_bound : ((L4_TERMS.map (fun term => |term.A|)).sum : ℝ) ≤ 123 := by
  simp only [L4_TERMS, List.map_cons, List.map_nil, List.sum_cons, List.sum_nil]
  norm_num

lemma L5_TERMS_bound : ((L5_TERMS.map (fun term => |term.A|)).sum : ℝ) ≤ 1 := by
  simp only [L5_TERMS, List.map_cons, List.map_nil, List.sum_cons, List.sum_nil]
  norm_num

lemma helioL_bounds :
    π ≤ heliocentric L_TERMS (1 / 2000) ∧
      heliocentric L_TERMS (1 / 2000) < 2 * π := by
  obtain ⟨e0lo, e0hi⟩ :=
    abs_le.mp ((abs_sumTerms_le L0_TAIL (1 / 2000)).trans L0_TAIL_bound)
  obtain ⟨e1lo, e1hi⟩ :=
    abs_le.mp ((abs_sumTerms_le L1_TAIL (1 / 2000)).trans L1_TAIL_bound)
  obtain ⟨e2lo, e2hi⟩ :=
    abs_le.mp ((abs_sumTerms_le L2_TERMS (1 / 2000)).trans L2_TERMS_bound)
  obtain ⟨e3lo, e3hi⟩ :=
    abs_le.mp ((abs_sumTerms_le L3_TERMS (1 / 2000)).trans L3_TERMS_bound)
  obtain ⟨e4lo, e4hi⟩ :=
    abs_le.mp ((abs_sumTerms_le L4_TERMS (1 / 2000)).trans L4_TERMS_bound)
  obtain ⟨e5lo, e5hi⟩ :=
    abs_le.mp ((abs_sumTerms_le L5_TERMS (1 / 2000)).trans L5_TERMS_bound)
  have hexp : heliocentric L_TERMS (1 / 2000) =
      (sumTerms L0_TERMS (1 / 2000) +
        sumTerms L1_TERMS (1 / 2000) * (1 / 2000) +
        sumTerms L2_TERMS (1 / 2000) * (1 / 4000000) +
        sumTerms L3_TERMS (1 / 2000) * (1 / 8000000000) +
        sumTerms L4_TERMS (1 / 2000) * (1 / 16000000000000) +
        sumTerms L5_TERMS (1 / 2000) * (1 / 32000000000000000)) / 100000000 := by
    simp only [heliocentric, L_TERMS, List.enum, List.enumFrom, List.foldl]
    norm_num
  have hs0 : sumTerms L0_TERMS (1 / 2000) =
      175347046 + sumTerms L0_TAIL (1 / 2000) := by
    rw [show L0_TERMS = (⟨175347046.0, 0, 0⟩ : SpaTerm) :: L0_TAIL from rfl,
      sumTerms_cons]
    norm_num
  have hs1 : sumTerms L1_TERMS (1 / 2000) =
      628331966747 + sumTerms L1_TAIL (1 / 2000) := by
    rw [show L1_TERMS = (⟨628331966747.0, 0, 0⟩ : SpaTerm) :: L1_TAIL from rfl,
      sumTerms_cons]
    norm_num
  rw [hexp, hs0, hs1]
  have hπlo := Real.pi_gt_d6
  have hπhi := Real.pi_lt_d2
  constructor
  · linarith
  · linarith

/-- Claim C2 is false as stated: at the concrete parameter record `p₀`
(July 2000, chosen so that `JME = 1/2000`), the Θ field of the result — a
bearing-like angular field the claim asserts lies in `[0°, 360°)` — is at
least 360°, because the source computes `Θ = L + π` without normalizing. -/
theorem calculate_Θ_out_of_range : 360 ≤ (calculate p₀).Θ := by
  have hJME : Steps.JME p₀ = 1 / 2000 := by
    unfold Steps.JME Steps.JCE Steps.JDE Steps.JD julianDate
      JULIAN_DAY_UNIX_EPOCH MSEC_PER_DAY p₀
    norm_num
  have hb := helioL_bounds
  have hπ := Real.pi_pos
  have hL : Steps.L p₀ = heliocentric L_TERMS (1 / 2000) := by
    unfold Steps.L
    rw [hJME]
    exact normalize_eq_self (by linarith [hb.1]) hb.2
  show 360 ≤ rad2deg (Steps.Θ p₀)
  unfold Steps.Θ rad2deg
  rw [hL]
  have h2 : 180 / π * (2 * π) = 360 := by
    field_simp
    ring
  have h3 : 180 / π * (2 * π) ≤
      180 / π * (heliocentric L_TERMS (1 / 2000) + π) :=
    mul_le_mul_of_nonneg_left (by linarith [hb.1])
      (le_of_lt (div_pos (by norm_num) hπ))
  rw [h2] at h3
  exact h3

lemma rad2deg_mem_of_normalized {x : ℝ} (h0 : 0 ≤ x) (h1 : x < 2 * π) :
    0 ≤ rad2deg x ∧ rad2deg x < 360 := by
  unfold rad2deg
  have hπ := Real.pi_pos
  have hpos : (0 : ℝ) < 180 / π := div_pos (by norm_num) hπ
  constructor
  · exact mul_nonneg hpos.le h0
  · have h2 : 180 / π * x < 180 / π * (2 * π) := mul_lt_mul_of_pos_left h1 hpos
    have h3 : 180 / π * (2 * π) = 360 := by
      field_simp
      ring
    linarith

/-- Claim C2 (amended): the result fields produced through `normalize` — `L`,
`α`, `H` and `Φ` — lie in `[0°, 360°)`; but `Θ` is returned as `L + 180°`
without renormalization (so it lies in `[180°, 540°)`), and `αʹ`, `Hʹ` are
returned as `α + Δα` and `H − Δα` (`Δα` the parallax right-ascension offset,
in degrees) without renormalization.  Latitude-like fields and correction
terms are unconstrained. -/
theorem calculate_angle_ranges (p : Params) :
    (0 ≤ (calculate p).L ∧ (calculate p).L < 360) ∧
    (0 ≤ (calculate p).α ∧ (calculate p).α < 360) ∧
    (0 ≤ (calculate p).H ∧ (calculate p).H < 360) ∧
    (0 ≤ (calculate p).Φ ∧ (calculate p).Φ < 360) ∧
    (calculate p).Θ = (calculate p).L + 180 ∧
    (calculate p).α' = (calculate p).α + rad2deg (Steps.Δα p) ∧
    (calculate p).H' = (calculate p).H - rad2deg (Steps.Δα p) := by
  have hπ := Real.pi_ne_zero
  refine ⟨rad2deg_mem_of_normalized (normalize_nonneg _) (normalize_lt _),
    rad2deg_mem_of_normalized (normalize_nonneg _) (normalize_lt _),
    rad2deg_mem_of_normalized (normalize_nonneg _) (normalize_lt _),
    rad2deg_mem_of_normalized (normalize_nonneg _) (normalize_lt _),
    ?_, ?_, ?_⟩
  · show rad2deg (Steps.Θ p) = rad2deg (Steps.L p) + 180
    unfold Steps.Θ rad2deg
    field_simp
    ring
  · show rad2deg (Steps.α' p) = rad2deg (Steps.α p) + rad2deg (Steps.Δα p)
    unfold Steps.α' rad2deg
    ring
  · show rad2deg (Steps.H' p) = rad2deg (Steps.H p) - rad2deg (Steps.Δα p)
    unfold Steps.H' rad2deg
    ring

lemma jsTrunc_eq_floor {x : ℝ} (h : 0 ≤ x) : jsTrunc x = ⌊x⌋ := if_pos h

lemma jsTrunc_eq_ceil {x : ℝ} (h : x < 0) : jsTrunc x = ⌈x⌉ :=
  if_neg (not_le.2 h)

lemma ΔT_band13 {y : ℝ} (h1 : 2050 ≤ y) (h2 : y < 2150) :
    ΔT y = jsXor (-20 + 32 * ((y - 1820) / 100)) (2 - 0.5628 * (2150 - y)) := by
  unfold ΔT
  rw [if_neg (not_lt.2 (by linarith)),
    if_neg (not_lt.2 (by linarith)),
    if_neg (not_lt.2 (by linarith)),
    if_neg (not_lt.2 (by linarith)),
    if_neg (not_lt.2 (by linarith)),
    if_neg (not_lt.2 (by linarith)),
    if_neg (not_lt.2 (by linarith)),
    if_neg (not_lt.2 (by linarith)),
    if_neg (not_lt.2 (by linarith)),
    if_neg (not_lt.2 (by linarith)),
    if_neg (not_lt.2 (by linarith)),
    if_neg (not_lt.2 (by linarith)),
    if_neg (not_lt.2 (by linarith)),
    if_pos h2]

lemma ΔT_xor_locally_const {y : ℝ} (h1 : 2100 ≤ y) (h2 : y ≤ 2100 + 1 / 10) :
    ΔT y = -93 := by
  rw [ΔT_band13 (by linarith) (by linarith)]
  have ha : jsTrunc (-20 + 32 * ((y - 1820) / 100)) = 69 := by
    rw [jsTrunc_eq_floor (by linarith), Int.floor_eq_iff]
    constructor <;> push_cast <;> linarith
  have hb : jsTrunc (2 - 0.5628 * (2150 - y)) = -26 := by
    rw [jsTrunc_eq_ceil (by linarith), Int.ceil_eq_iff]
    constructor <;> push_cast <;> linarith
  unfold jsXor
  rw [ha, hb, show int32Xor 69 (-26) = -93 from by decide]
  norm_num

lemma ΔT_at_2050 : ΔT 2050 = -1 := by
  rw [ΔT_band13 (by norm_num) (by norm_num)]
  have ha : jsTrunc (-20 + 32 * (((2050 : ℝ) - 1820) / 100)) = 53 := by
    rw [jsTrunc_eq_floor (by norm_num), Int.floor_eq_iff]
    constructor <;> push_cast <;> norm_num
  have hb : jsTrunc (2 - 0.5628 * (2150 - (2050 : ℝ))) = -54 := by
    rw [jsTrunc_eq_ceil (by norm_num), Int.ceil_eq_iff]
    constructor <;> push_cast <;> norm_num
  unfold jsXor
  rw [ha, hb, show int32Xor 53 (-54) = -1 from by decide]
  norm_num

lemma inBand_iff_0 (y : ℝ) : inBand 0 y ↔ (y < -500) := by norm_num [inBand]

lemma inBand_iff_1 (y : ℝ) : inBand 1 y ↔ (-500 ≤ y ∧ y < 500) := by norm_num [inBand]

lemma inBand_iff_2 (y : ℝ) : inBand 2 y ↔ (500 ≤ y ∧ y < 1600) := by norm_num [inBand]

lemma inBand_iff_3 (y : ℝ) : inBand 3 y ↔ (1600 ≤ y ∧ y < 1700) := by norm_num [inBand]

lemma inBand_iff_4 (y : ℝ) : inBand 4 y ↔ (1700 ≤ y ∧ y < 1800) := by norm_num [inBand]

lemma inBand_iff_5 (y : ℝ) : inBand 5 y ↔ (1800 ≤ y ∧ y < 1860) := by norm_num [inBand]

lemma inBand_iff_6 (y : ℝ) : inBand 6 y ↔ (1860 ≤ y ∧ y < 1900) := by norm_num [inBand]

lemma inBand_iff_7 (y : ℝ) : inBand 7 y ↔ (1900 ≤ y ∧ y < 1920) := by norm_num [inBand]

lemma inBand_iff_8 (y : ℝ) : inBand 8 y ↔ (1920 ≤ y ∧ y < 1941) := by norm_num [inBand]

lemma inBand_iff_9 (y : ℝ) : inBand 9 y ↔ (1941 ≤ y ∧ y < 1961) := by norm_num [inBand]

lemma inBand_iff_10 (y : ℝ) : inBand 10 y ↔ (1961 ≤ y ∧ y < 1986) := by norm_num [inBand]

lemma inBand_iff_11 (y : ℝ) : inBand 11 y ↔ (1986 ≤ y ∧ y < 2005) := by norm_num [inBand]

lemma inBand_iff_12 (y : ℝ) : inBand 12 y ↔ (2005 ≤ y ∧ y < 2050) := by norm_num [inBand]

lemma inBand_iff_13 (y : ℝ) : inBand 13 y ↔ (2050 ≤ y ∧ y < 2150) := by norm_num [inBand]

lemma inBand_iff_14 (y : ℝ) : inBand 14 y ↔ (2150 ≤ y) := by norm_num [inBand]

lemma inBand_lt {n : ℕ} {y : ℝ} (h : inBand n y) : n < 15 := by
  by_contra hn
  push_neg at hn
  have hn0 : n ≠ 0 := by omega
  have hn1 : n ≠ 1 := by omega
  have hn2 : n ≠ 2 := by omega
  have hn3 : n ≠ 3 := by omega
  have hn4 : n ≠ 4 := by omega
  have hn5 : n ≠ 5 := by omega
  have hn6 : n ≠ 6 := by omega
  have hn7 : n ≠ 7 := by omega
  have hn8 : n ≠ 8 := by omega
  have hn9 : n ≠ 9 := by omega
  have hn10 : n ≠ 10 := by omega
  have hn11 : n ≠ 11 := by omega
  have hn12 : n ≠ 12 := by omega
  have hn13 : n ≠ 13 := by omega
  have hn14 : n ≠ 14 := by omega
  unfold inBand at h
  rw [if_neg hn0, if_neg hn1, if_neg hn2, if_neg hn3, if_neg hn4, if_neg hn5, if_neg hn6, if_neg hn7, if_neg hn8, if_neg hn9, if_neg hn10, if_neg hn11, if_neg hn12, if_neg hn13, if_neg hn14] at h
  exact h

lemma inBand_exists (y : ℝ) : ∃ n, inBand n y := by
  by_cases h0 : y < -500
  · exact ⟨0, (inBand_iff_0 y).2 h0⟩
  by_cases h1 : y < 500
  · exact ⟨1, (inBand_iff_1 y).2 ⟨le_of_not_lt h0, h1⟩⟩
  by_cases h2 : y < 1600
  · exact ⟨2, (inBand_iff_2 y).2 ⟨le_of_not_lt h1, h2⟩⟩
  by_cases h3 : y < 1700
  · exact ⟨3, (inBand_iff_3 y).2 ⟨le_of_not_lt h2, h3⟩⟩
  by_cases h4 : y < 1800
  · exact ⟨4, (inBand_iff_4 y).2 ⟨le_of_not_lt h3, h4⟩⟩
  by_cases h5 : y < 1860
  · exact ⟨5, (inBand_iff_5 y).2 ⟨le_of_not_lt h4, h5⟩⟩
  by_cases h6 : y < 1900
  · exact ⟨6, (inBand_iff_6 y).2 ⟨le_of_not_lt h5, h6⟩⟩
  by_cases h7 : y < 1920
  · exact ⟨7, (inBand_iff_7 y).2 ⟨le_of_not_lt h6, h7⟩⟩
  by_cases h8 : y < 1941
  · exact ⟨8, (inBand_iff_8 y).2 ⟨le_of_not_lt h7, h8⟩⟩
  by_cases h9 : y < 1961
  · exact ⟨9, (inBand_iff_9 y).2 ⟨le_of_not_lt h8, h9⟩⟩
  by_cases h10 : y < 1986
  · exact ⟨10, (inBand_iff_10 y).2 ⟨le_of_not_lt h9, h10⟩⟩
  by_cases h11 : y < 2005
  · exact ⟨11, (inBand_iff_11 y).2 ⟨le_of_not_lt h10, h11⟩⟩
  by_cases h12 : y < 2050
  · exact ⟨12, (inBand_iff_12 y).2 ⟨le_of_not_lt h11, h12⟩⟩
  by_cases h13 : y < 2150
  · exact ⟨13, (inBand_iff_13 y).2 ⟨le_of_not_lt h12, h13⟩⟩
  exact ⟨14, (inBand_iff_14 y).2 (le_of_not_lt h13)⟩

set_option maxHeartbeats 1000000 in
lemma inBand_unique (y : ℝ) (i j : ℕ) (hi : inBand i y) (hj : inBand j y) :
    i = j := by
  have hi15 : i < 15 := inBand_lt hi
  have hj15 : j < 15 := inBand_lt hj
  have hI : i = 0 ∨ i = 1 ∨ i = 2 ∨ i = 3 ∨ i = 4 ∨ i = 5 ∨ i = 6 ∨ i = 7 ∨ i = 8 ∨ i = 9 ∨ i = 10 ∨ i = 11 ∨ i = 12 ∨ i = 13 ∨ i = 14 := by omega
  have hJ : j = 0 ∨ j = 1 ∨ j = 2 ∨ j = 3 ∨ j = 4 ∨ j = 5 ∨ j = 6 ∨ j = 7 ∨ j = 8 ∨ j = 9 ∨ j = 10 ∨ j = 11 ∨ j = 12 ∨ j = 13 ∨ j = 14 := by omega
  rcases hI with rfl|rfl|rfl|rfl|rfl|rfl|rfl|rfl|rfl|rfl|rfl|rfl|rfl|rfl|rfl <;> rcases hJ with rfl|rfl|rfl|rfl|rfl|rfl|rfl|rfl|rfl|rfl|rfl|rfl|rfl|rfl|rfl <;>
    simp only [inBand_iff_0, inBand_iff_1, inBand_iff_2, inBand_iff_3, inBand_iff_4, inBand_iff_5, inBand_iff_6, inBand_iff_7, inBand_iff_8, inBand_iff_9, inBand_iff_10, inBand_iff_11, inBand_iff_12, inBand_iff_13, inBand_iff_14] at hi hj <;>
    (try obtain ⟨hi1, hi2⟩ := hi) <;>
    (try obtain ⟨hj1, hj2⟩ := hj) <;>
    first
    | rfl
    | linarith

lemma bandFormula_0 (y : ℝ) : bandFormula 0 y = polynomial ((y - 1820) / 100) [-20, 0, 32] := by
  norm_num [bandFormula]

lemma bandFormula_1 (y : ℝ) : bandFormula 1 y = polynomial (y / 100) [10583.6, -1014.41, 33.78311, -5.952053, -0.1798452, 0.022174192, 0.0090316521] := by
  norm_num [bandFormula]

lemma bandFormula_2 (y : ℝ) : bandFormula 2 y = polynomial ((y - 1000) / 100) [1574.2, -556.01, 71.23472, 0.319781, -0.8503463, -0.005050998, 0.0083572073] := by
  norm_num [bandFormula]

lemma bandFormula_3 (y : ℝ) : bandFormula 3 y = polynomial (y - 1600) [120, -0.9808, -0.01532, 1 / 7129] := by
  norm_num [bandFormula]

lemma bandFormula_4 (y : ℝ) : bandFormula 4 y = polynomial (y - 1700) [8.83, 0.1603, -0.0059285, 0.00013336, -1 / 1174000] := by
  norm_num [bandFormula]

lemma bandFormula_5 (y : ℝ) : bandFormula 5 y = polynomial (y - 1800) [13.72, -0.332447, 0.0068612, 0.0041116, -0.00037436, 0.0000121272, -0.0000001699, 0.000000000875] := by
  norm_num [bandFormula]

lemma bandFormula_6 (y : ℝ) : bandFormula 6 y = polynomial (y - 1860) [7.62, 0.5737, -0.251754, 0.01680668, -0.0004473624, 1 / 233174] := by
  norm_num [bandFormula]

lemma bandFormula_7 (y : ℝ) : bandFormula 7 y = polynomial (y - 1900) [-2.79, 1.494119, -0.0598939, 0.0061966, -0.000197] := by
  norm_num [bandFormula]

lemma bandFormula_8 (y : ℝ) : bandFormula 8 y = polynomial (y - 1920) [21.2, 0.84493, -0.0761, 0.0020936] := by
  norm_num [bandFormula]

lemma bandFormula_9 (y : ℝ) : bandFormula 9 y = polynomial (y - 1950) [29.07, 0.407, -1 / 233, 1 / 2547] := by
  norm_num [bandFormula]

lemma bandFormula_10 (y : ℝ) : bandFormula 10 y = polynomial (y - 1975) [45.45, 1.067, -1 / 260, -1 / 718] := by
  norm_num [bandFormula]

lemma bandFormula_11 (y : ℝ) : bandFormula 11 y = polynomial (y - 2000) [63.86, 0.3345, -0.060374, 0.0017275, 0.000651814, 0.00002373599] := by
  norm_num [bandFormula]

lemma bandFormula_12 (y : ℝ) : bandFormula 12 y = polynomial (y - 2000) [62.92, 0.32217, 0.005589] := by
  norm_num [bandFormula]

lemma bandFormula_13 (y : ℝ) : bandFormula 13 y = jsXor (-20 + 32 * ((y - 1820) / 100)) (2 - 0.5628 * (2150 - y)) := by
  norm_num [bandFormula]

lemma bandFormula_14 (y : ℝ) : bandFormula 14 y = polynomial ((y - 1820) / 100) [-20, 0, 32] := by
  norm_num [bandFormula]

lemma ΔT_band0 {y : ℝ} (h2 : y < -500) : ΔT y = polynomial ((y - 1820) / 100) [-20, 0, 32] := by
  unfold ΔT
  rw [if_pos h2]

lemma ΔT_band1 {y : ℝ} (h1 : (-500 : ℝ) ≤ y) (h2 : y < 500) :
    ΔT y = polynomial (y / 100) [10583.6, -1014.41, 33.78311, -5.952053, -0.1798452, 0.022174192, 0.0090316521] := by
  unfold ΔT
  rw [if_neg (not_lt.2 (by linarith)),
    if_pos h2]

lemma ΔT_band2 {y : ℝ} (h1 : (500 : ℝ) ≤ y) (h2 : y < 1600) :
    ΔT y = polynomial ((y - 1000) / 100) [1574.2, -556.01, 71.23472, 0.319781, -0.8503463, -0.005050998, 0.0083572073] := by
  unfold ΔT
  rw [if_neg (not_lt.2 (by linarith)),
    if_neg (not_lt.2 (by linarith)),
    if_pos h2]

lemma ΔT_band3 {y : ℝ} (h1 : (1600 : ℝ) ≤ y) (h2 : y < 1700) :
    ΔT y = polynomial (y - 1600) [120, -0.9808, -0.01532, 1 / 7129] := by
  unfold ΔT
  rw [if_neg (not_lt.2 (by linarith)),
    if_neg (not_lt.2 (by linarith)),
    if_neg (not_lt.2 (by linarith)),
    if_pos h2]

lemma ΔT_band4 {y : ℝ} (h1 : (1700 : ℝ) ≤ y) (h2 : y < 1800) :
    ΔT y = polynomial (y - 1700) [8.83, 0.1603, -0.0059285, 0.00013336, -1 / 1174000] := by
  unfold ΔT
  rw [if_neg (not_lt.2 (by linarith)),
    if_neg (not_lt.2 (by linarith)),
    if_neg (not_lt.2 (by linarith)),
    if_neg (not_lt.2 (by linarith)),
    if_pos h2]

lemma ΔT_band5 {y : ℝ} (h1 : (1800 : ℝ) ≤ y) (h2 : y < 1860) :
    ΔT y = polynomial (y - 1800) [13.72, -0.332447, 0.0068612, 0.0041116, -0.00037436, 0.0000121272, -0.0000001699, 0.000000000875] := by
  unfold ΔT
  rw [if_neg (not_lt.2 (by linarith)),
    if_neg (not_lt.2 (by linarith)),
    if_neg (not_lt.2 (by linarith)),
    if_neg (not_lt.2 (by linarith)),
    if_neg (not_lt.2 (by linarith)),
    if_pos h2]

lemma ΔT_band6 {y : ℝ} (h1 : (1860 : ℝ) ≤ y) (h2 : y < 1900) :
    ΔT y = polynomial (y - 1860) [7.62, 0.5737, -0.251754, 0.01680668, -0.0004473624, 1 / 233174] := by
  unfold ΔT
  rw [if_neg (not_lt.2 (by linarith)),
    if_neg (not_lt.2 (by linarith)),
    if_neg (not_lt.2 (by linarith)),
    if_neg (not_lt.2 (by linarith)),
    if_neg (not_lt.2 (by linarith)),
    if_neg (not_lt.2 (by linarith)),
    if_pos h2]

lemma ΔT_band7 {y : ℝ} (h1 : (1900 : ℝ) ≤ y) (h2 : y < 1920) :
    ΔT y = polynomial (y - 1900) [-2.79, 1.494119, -0.0598939, 0.0061966, -0.000197] := by
  unfold ΔT
  rw [if_neg (not_lt.2 (by linarith)),
    if_neg (not_lt.2 (by linarith)),
    if_neg (not_lt.2 (by linarith)),
    if_neg (not_lt.2 (by linarith)),
    if_neg (not_lt.2 (by linarith)),
    if_neg (not_lt.2 (by linarith)),
    if_neg (not_lt.2 (by linarith)),
    if_pos h2]

lemma ΔT_band8 {y : ℝ} (h1 : (1920 : ℝ) ≤ y) (h2 : y < 1941) :
    ΔT y = polynomial (y - 1920) [21.2, 0.84493, -0.0761, 0.0020936] := by
  unfold ΔT
  rw [if_neg (not_lt.2 (by linarith)),
    if_neg (not_lt.2 (by linarith)),
    if_neg (not_lt.2 (by linarith)),
    if_neg (not_lt.2 (by linarith)),
    if_neg (not_lt.2 (by linarith)),
    if_neg (not_lt.2 (by linarith)),
    if_neg (not_lt.2 (by linarith)),
    if_neg (not_lt.2 (by linarith)),
    if_pos h2]

lemma ΔT_band9 {y : ℝ} (h1 : (1941 : ℝ) ≤ y) (h2 : y < 1961) :
    ΔT y = polynomial (y - 1950) [29.07, 0.407, -1 / 233, 1 / 2547] := by
  unfold ΔT
  rw [if_neg (not_lt.2 (by linarith)),
    if_neg (not_lt.2 (by linarith)),
    if_neg (not_lt.2 (by linarith)),
    if_neg (not_lt.2 (by linarith)),
    if_neg (not_lt.2 (by linarith)),
    if_neg (not_lt.2 (by linarith)),
    if_neg (not_lt.2 (by linarith)),
    if_neg (not_lt.2 (by linarith)),
    if_neg (not_lt.2 (by linarith)),
    if_pos h2]

lemma ΔT_band10 {y : ℝ} (h1 : (1961 : ℝ) ≤ y) (h2 : y < 1986) :
    ΔT y = polynomial (y - 1975) [45.45, 1.067, -1 / 260, -1 / 718] := by
  unfold ΔT
  rw [if_neg (not_lt.2 (by linarith)),
    if_neg (not_lt.2 (by linarith)),
    if_neg (not_lt.2 (by linarith)),
    if_neg (not_lt.2 (by linarith)),
    if_neg (not_lt.2 (by linarith)),
    if_neg (not_lt.2 (by linarith)),
    if_neg (not_lt.2 (by linarith)),
    if_neg (not_lt.2 (by linarith)),
    if_neg (not_lt.2 (by linarith)),
    if_neg (not_lt.2 (by linarith)),
    if_pos h2]

lemma ΔT_band11 {y : ℝ} (h1 : (1986 : ℝ) ≤ y) (h2 : y < 2005) :
    ΔT y = polynomial (y - 2000) [63.86, 0.3345, -0.060374, 0.0017275, 0.000651814, 0.00002373599] := by
  unfold ΔT
  rw [if_neg (not_lt.2 (by linarith)),
    if_neg (not_lt.2 (by linarith)),
    if_neg (not_lt.2 (by linarith)),
    if_neg (not_lt.2 (by linarith)),
    if_neg (not_lt.2 (by linarith)),
    if_neg (not_lt.2 (by linarith)),
    if_neg (not_lt.2 (by linarith)),
    if_neg (not_lt.2 (by linarith)),
    if_neg (not_lt.2 (by linarith)),
    if_neg (not_lt.2 (by linarith)),
    if_neg (not_lt.2 (by linarith)),
    if_pos h2]

lemma ΔT_band12 {y : ℝ} (h1 : (2005 : ℝ) ≤ y) (h2 : y < 2050) :
    ΔT y = polynomial (y - 2000) [62.92, 0.32217, 0.005589] := by
  unfold ΔT
  rw [if_neg (not_lt.2 (by linarith)),
    if_neg (not_lt.2 (by linarith)),
    if_neg (not_lt.2 (by linarith)),
    if_neg (not_lt.2 (by linarith)),
    if_neg (not_lt.2 (by linarith)),
    if_neg (not_lt.2 (by linarith)),
    if_neg (not_lt.2 (by linarith)),
    if_neg (not_lt.2 (by linarith)),
    if_neg (not_lt.2 (by linarith)),
    if_neg (not_lt.2 (by linarith)),
    if_neg (not_lt.2 (by linarith)),
    if_neg (not_lt.2 (by linarith)),
    if_pos h2]

lemma ΔT_band14 {y : ℝ} (h1 : (2150 : ℝ) ≤ y) :
    ΔT y = polynomial ((y - 1820) / 100) [-20, 0, 32] := by
  unfold ΔT
  rw [if_neg (not_lt.2 (by linarith)),
    if_neg (not_lt.2 (by linarith)),
    if_neg (not_lt.2 (by linarith)),
    if_neg (not_lt.2 (by linarith)),
    if_neg (not_lt.2 (by linarith)),
    if_neg (not_lt.2 (by linarith)),
    if_neg (not_lt.2 (by linarith)),
    if_neg (not_lt.2 (by linarith)),
    if_neg (not_lt.2 (by linarith)),
    if_neg (not_lt.2 (by linarith)),
    if_neg (not_lt.2 (by linarith)),
    if_neg (not_lt.2 (by linarith)),
    if_neg (not_lt.2 (by linarith)),
    if_neg (not_lt.2 (by linarith))]

lemma ΔT_eq_bandFormula (y : ℝ) (n : ℕ) (h : inBand n y) :
    ΔT y = bandFormula n y := by
  have hn : n < 15 := inBand_lt h
  have hN : n = 0 ∨ n = 1 ∨ n = 2 ∨ n = 3 ∨ n = 4 ∨ n = 5 ∨ n = 6 ∨ n = 7 ∨ n = 8 ∨ n = 9 ∨ n = 10 ∨ n = 11 ∨ n = 12 ∨ n = 13 ∨ n = 14 := by omega
  rcases hN with rfl|rfl|rfl|rfl|rfl|rfl|rfl|rfl|rfl|rfl|rfl|rfl|rfl|rfl|rfl
  · rw [bandFormula_0]
    exact ΔT_band0 ((inBand_iff_0 y).1 h)
  · obtain ⟨ha, hb⟩ := (inBand_iff_1 y).1 h
    rw [bandFormula_1]
    exact ΔT_band1 ha hb
  · obtain ⟨ha, hb⟩ := (inBand_iff_2 y).1 h
    rw [bandFormula_2]
    exact ΔT_band2 ha hb
  · obtain ⟨ha, hb⟩ := (inBand_iff_3 y).1 h
    rw [bandFormula_3]
    exact ΔT_band3 ha hb
  · obtain ⟨ha, hb⟩ := (inBand_iff_4 y).1 h
    rw [bandFormula_4]
    exact ΔT_band4 ha hb
  · obtain ⟨ha, hb⟩ := (inBand_iff_5 y).1 h
    rw [bandFormula_5]
    exact ΔT_band5 ha hb
  · obtain ⟨ha, hb⟩ := (inBand_iff_6 y).1 h
    rw [bandFormula_6]
    exact ΔT_band6 ha hb
  · obtain ⟨ha, hb⟩ := (inBand_iff_7 y).1 h
    rw [bandFormula_7]
    exact ΔT_band7 ha hb
  · obtain ⟨ha, hb⟩ := (inBand_iff_8 y).1 h
    rw [bandFormula_8]
    exact ΔT_band8 ha hb
  · obtain ⟨ha, hb⟩ := (inBand_iff_9 y).1 h
    rw [bandFormula_9]
    exact ΔT_band9 ha hb
  · obtain ⟨ha, hb⟩ := (inBand_iff_10 y).1 h
    rw [bandFormula_10]
    exact ΔT_band10 ha hb
  · obtain ⟨ha, hb⟩ := (inBand_iff_11 y).1 h
    rw [bandFormula_11]
    exact ΔT_band11 ha hb
  · obtain ⟨ha, hb⟩ := (inBand_iff_12 y).1 h
    rw [bandFormula_12]
    exact ΔT_band12 ha hb
  · obtain ⟨ha, hb⟩ := (inBand_iff_13 y).1 h
    rw [bandFormula_13]
    exact ΔT_band13 ha hb
  · rw [bandFormula_14]
    exact ΔT_band14 ((inBand_iff_14 y).1 h)
/-- Claim C3 (amended): the ΔT estimator is total and well-defined, but over
fifteen (not twelve) disjoint, exhaustive, monotonically ordered year bands
whose outermost bands extend to ±infinity: the cut points are strictly
increasing, every year lies in exactly one band, and on each band `ΔT` equals
that band's formula.  On every band except 2050–2150 that formula is a
polynomial in a shifted and scaled year with fixed coefficients; in the
2050–2150 band the source instead computes a JavaScript 32-bit bitwise XOR
(`^` is XOR, not exponentiation, in JavaScript). -/
theorem deltaT_band_structure :
    List.Chain' (fun a b => a < b) cuts ∧
    (∀ y : ℝ, ∃! n : ℕ, inBand n y) ∧
    (∀ (y : ℝ) (n : ℕ), inBand n y → ΔT y = bandFormula n y) ∧
    (∀ n : ℕ, n < 15 → n ≠ 13 →
      ∃ (cs : List ℝ) (s d : ℝ), d ≠ 0 ∧
        ∀ y : ℝ, bandFormula n y = polynomial ((y - s) / d) cs) ∧
    (∀ y : ℝ, 2050 ≤ y → y < 2150 →
      ΔT y = jsXor (-20 + 32 * ((y - 1820) / 100)) (2 - 0.5628 * (2150 - y))) := by
  refine ⟨by norm_num [cuts, List.chain'_cons], ?_, ΔT_eq_bandFormula, ?_,
    fun y h1 h2 => ΔT_band13 h1 h2⟩
  · intro y
    obtain ⟨n, hn⟩ := inBand_exists y
    exact ⟨n, hn, fun j hj => inBand_unique y j n hj hn⟩
  · intro n hn15 hn13
    have hN : n = 0 ∨ n = 1 ∨ n = 2 ∨ n = 3 ∨ n = 4 ∨ n = 5 ∨ n = 6 ∨ n = 7 ∨ n = 8 ∨ n = 9 ∨ n = 10 ∨ n = 11 ∨ n = 12 ∨ n = 13 ∨ n = 14 := by omega
    rcases hN with rfl|rfl|rfl|rfl|rfl|rfl|rfl|rfl|rfl|rfl|rfl|rfl|rfl|rfl|rfl
    · exact ⟨[-20, 0, 32], 1820, 100, by norm_num,
        fun y => by rw [bandFormula_0]⟩
    · exact ⟨[10583.6, -1014.41, 33.78311, -5.952053, -0.1798452, 0.022174192, 0.0090316521], 0, 100, by norm_num,
        fun y => by rw [bandFormula_1, sub_zero]⟩
    · exact ⟨[1574.2, -556.01, 71.23472, 0.319781, -0.8503463, -0.005050998, 0.0083572073], 1000, 100, by norm_num,
        fun y => by rw [bandFormula_2]⟩
    · exact ⟨[120, -0.9808, -0.01532, 1 / 7129], 1600, 1, by norm_num,
        fun y => by rw [bandFormula_3, div_one]⟩
    · exact ⟨[8.83, 0.1603, -0.0059285, 0.00013336, -1 / 1174000], 1700, 1, by norm_num,
        fun y => by rw [bandFormula_4, div_one]⟩
    · exact ⟨[13.72, -0.332447, 0.0068612, 0.0041116, -0.00037436, 0.0000121272, -0.0000001699, 0.000000000875], 1800, 1, by norm_num,
        fun y => by rw [bandFormula_5, div_one]⟩
    · exact ⟨[7.62, 0.5737, -0.251754, 0.01680668, -0.0004473624, 1 / 233174], 1860, 1, by norm_num,
        fun y => by rw [bandFormula_6, div_one]⟩
    · exact ⟨[-2.79, 1.494119, -0.0598939, 0.0061966, -0.000197], 1900, 1, by norm_num,
        fun y => by rw [bandFormula_7, div_one]⟩
    · exact ⟨[21.2, 0.84493, -0.0761, 0.0020936], 1920, 1, by norm_num,
        fun y => by rw [bandFormula_8, div_one]⟩
    · exact ⟨[29.07, 0.407, -1 / 233, 1 / 2547], 1950, 1, by norm_num,
        fun y => by rw [bandFormula_9, div_one]⟩
    · exact ⟨[45.45, 1.067, -1 / 260, -1 / 718], 1975, 1, by norm_num,
        fun y => by rw [bandFormula_10, div_one]⟩
    · exact ⟨[63.86, 0.3345, -0.060374, 0.0017275, 0.000651814, 0.00002373599], 2000, 1, by norm_num,
        fun y => by rw [bandFormula_11, div_one]⟩
    · exact ⟨[62.92, 0.32217, 0.005589], 2000, 1, by norm_num,
        fun y => by rw [bandFormula_12, div_one]⟩
    · exact absurd rfl hn13
    · exact ⟨[-20, 0, 32], 1820, 100, by norm_num,
        fun y => by rw [bandFormula_14]⟩

/-- Witness for C3 (amended): the band equation instantiated in the
2005–2050 band at year 2020, the polynomial shape of band 0, and the XOR
equation at year 2100. -/
theorem deltaT_band_structure_witness :
    ΔT 2020 = bandFormula 12 2020 ∧
    (∃ (cs : List ℝ) (s d : ℝ), d ≠ 0 ∧
      ∀ y : ℝ, bandFormula 0 y = polynomial ((y - s) / d) cs) ∧
    ΔT 2100 =
      jsXor (-20 + 32 * (((2100 : ℝ) - 1820) / 100))
        (2 - 0.5628 * (2150 - (2100 : ℝ))) :=
  ⟨deltaT_band_structure.2.2.1 2020 12 ((inBand_iff_12 2020).2 (by norm_num)),
   deltaT_band_structure.2.2.2.1 0 (by norm_num) (by norm_num),
   deltaT_band_structure.2.2.2.2 2100 (by norm_num) (by norm_num)⟩

/-- Claim C3 is false as stated: the estimator has fifteen bands (fourteen
interior cut points), not twelve; and on the 2050–2150 band the selected
formula is not a polynomial in the (shifted) year at all: `ΔT` is constant
(−93 s) on the whole interval `[2100, 2100.1]` yet equals −1 s at 2050, which
no polynomial can match on that band. -/
theorem deltaT_claim_false :
    cuts.length = 14 ∧
    ¬ ∃ p : Polynomial ℝ, ∀ y ∈ Set.Ico (2050 : ℝ) 2150, ΔT y = p.eval y := by
  refine ⟨by decide, ?_⟩
  rintro ⟨p, hp⟩
  have hconst : ∀ y ∈ Set.Ico (2100 : ℝ) (2100 + 1 / 10),
      (p - Polynomial.C (-93)).IsRoot y := by
    intro y hy
    obtain ⟨hy1, hy2⟩ := hy
    have h1 : ΔT y = -93 := ΔT_xor_locally_const hy1 (le_of_lt hy2)
    have h2 := hp y ⟨by linarith, by linarith⟩
    have h3 : Polynomial.eval y p = -93 := by rw [← h2, h1]
    show Polynomial.eval y (p - Polynomial.C (-93)) = 0
    rw [Polynomial.eval_sub, Polynomial.eval_C, h3]
    ring
  have hIco : (Set.Ico (2100 : ℝ) (2100 + 1 / 10)).Infinite :=
    Set.Ico_infinite (by norm_num)
  have hinf : {x : ℝ | (p - Polynomial.C (-93)).IsRoot x}.Infinite := by
    refine Set.Infinite.mono ?_ hIco
    intro z hz
    exact hconst z hz
  have hzero : p - Polynomial.C (-93) = 0 :=
    Polynomial.eq_zero_of_infinite_isRoot _ hinf
  have hpC : p = Polynomial.C (-93) := sub_eq_zero.mp hzero
  have h2050 := hp 2050 ⟨le_refl _, by norm_num⟩
  rw [ΔT_at_2050, hpC, Polynomial.eval_C] at h2050
  norm_num at h2050

end

end Solar
